import Mathlib

/-!
# MEGNO example driver (examples/megno/problem.c)

A shallow embedding of the example driver of the N-body code: the three
initial-condition tables, `main` as the sequence of library calls it makes,
and the `heartbeat` callback.  C `double` values are embedded as exact
rationals, each literal with the decimal value written in the source.

The library routines that `main` and `heartbeat` call (`particles_add`,
`tools_megno_init`, `rebound_integrate`, ...) are declared in headers only;
they are modelled from the specification and marked as such.
-/

namespace Megno

/-! ## Data model -/

/-- The fields of `struct Particle` that the driver writes. -/
structure Particle where
  x : ℚ
  y : ℚ
  z : ℚ
  vx : ℚ
  vy : ℚ
  vz : ℚ
  ax : ℚ
  ay : ℚ
  az : ℚ
  m : ℚ
deriving DecidableEq, Repr

/-- The two integrator variants the driver names. -/
inductive Integrator
  | IAS15
  | WHFAST
deriving DecidableEq, Repr

/-- Functions of the driver that can be stored in `r->heartbeat`. -/
inductive Callback
  | heartbeat
deriving DecidableEq, Repr

/-- The error taxonomy of the specification (section 7). -/
inductive Error
  | InvalidStateError
  | SingularGeometryError
  | StepSizeCollapseError
  | ConfigurationError
deriving DecidableEq, Repr

/-- The fields of `struct Rebound` that the driver and the specification name.
`N_megno` is the number of variational particles (0 until the variational
subsystem is set up); `Y_integral` and `time_sum` are the running sums of the
chaos accumulator. -/
structure Rebound where
  t : ℚ
  dt : ℚ
  G : ℚ
  integrator : Integrator
  boxsize : ℚ
  root_nx : Nat
  root_ny : Nat
  root_nz : Nat
  particles : List Particle
  N_megno : Nat
  heartbeat : Option Callback
  Y_integral : ℚ
  time_sum : ℚ
deriving DecidableEq, Repr

/-- What the driver writes outside the simulation state: the lines of
`output_timing` and the records appended to `Y.txt` (time, MEGNO). -/
structure World where
  timing : List (ℚ × ℚ)
  Y_txt : List (ℚ × ℚ)
deriving DecidableEq, Repr

/-- Library routines whose bodies are outside the example, taken as
parameters.  `output_check r interval` is the cadence test of output.h,
`whfast_particles` the particle update of a WHFAST step, `ias15_step` a whole
IAS15 step (`none` when the step size collapses), `megno_increment` the
accumulator term of one step and `megno_seed i` the unit deviation given to
the shadow of particle `i`. -/
structure Library where
  output_check : Rebound → ℚ → Bool
  whfast_particles : Rebound → List Particle
  ias15_step : Rebound → Option Rebound
  megno_increment : Rebound → ℚ
  megno_seed : Nat → Particle

/-! ## The tables of problem.c -/

/-- `double ss_pos[3][3]` (Sun, Jupiter, Saturn). -/
def ss_pos : List (List ℚ) :=
  [ [-4.06428567034226e-3, -6.08813756435987e-3, -1.66162304225834e-6],
    [ 3.40546614227466e+0,  3.62978190075864e+0,  3.42386261766577e-2],
    [ 6.60801554403466e+0,  6.38084674585064e+0, -1.36145963724542e-1] ]

/-- `double ss_vel[3][3]` (Sun, Jupiter, Saturn). -/
def ss_vel : List (List ℚ) :=
  [ [ 6.69048890636161e-6, -6.33922479583593e-6, -3.13202145590767e-9],
    [-5.59797969310664e-3,  5.51815399480116e-3, -2.66711392865591e-6],
    [-4.17354020307064e-3,  3.99723751748116e-3,  1.67206320571441e-5] ]

/-- `double ss_mass[3]` (Sun + inner planets, Jupiter, Saturn). -/
def ss_mass : List ℚ :=
  [ 1.00000597682,
    1 / 1047000.355,
    1 / 3501000.6 ]

/-- `double tmax = 1e9;` -/
def tmax : ℚ := 1e9

/-- Read `a[i][j]` from a two-dimensional table. -/
def at2 (a : List (List ℚ)) (i j : Nat) : ℚ := (a.getD i []).getD j 0

/-- Read `a[i]` from a one-dimensional table. -/
def at1 (a : List ℚ) (i : Nat) : ℚ := a.getD i 0

/-! ## main as a sequence of statements -/

/-- The statements of `main` after `rebound_init()`: field assignments on `r`
and calls into the library. -/
inductive Stmt
  | set_dt (v : ℚ)
  | set_integrator (i : Integrator)
  | set_G (v : ℚ)
  | rebound_configure_box (boxsize : ℚ) (nx ny nz : Nat)
  | particles_add (p : Particle)
  | tools_move_to_center_of_momentum
  | tools_megno_init (epsilon : ℚ)
  | set_heartbeat (cb : Callback)
  | rebound_integrate (target : ℚ)
deriving DecidableEq, Repr

/-- The kind of a statement, forgetting its arguments. -/
inductive CallKind
  | set_dt
  | set_integrator
  | set_G
  | rebound_configure_box
  | particles_add
  | tools_move_to_center_of_momentum
  | tools_megno_init
  | set_heartbeat
  | rebound_integrate
deriving DecidableEq, Repr

/-- The kind of a statement. -/
def Stmt.kind : Stmt → CallKind
  | .set_dt _ => .set_dt
  | .set_integrator _ => .set_integrator
  | .set_G _ => .set_G
  | .rebound_configure_box _ _ _ _ => .rebound_configure_box
  | .particles_add _ => .particles_add
  | .tools_move_to_center_of_momentum => .tools_move_to_center_of_momentum
  | .tools_megno_init _ => .tools_megno_init
  | .set_heartbeat _ => .set_heartbeat
  | .rebound_integrate _ => .rebound_integrate

/-- The body of the particle loop of `main` (lines 75-79): the particle built
in iteration `i`. -/
def loop_particle (i : Nat) : Particle :=
  { x := at2 ss_pos i 0, y := at2 ss_pos i 1, z := at2 ss_pos i 2,
    vx := at2 ss_vel i 0, vy := at2 ss_vel i 1, vz := at2 ss_vel i 2,
    ax := 0, ay := 0, az := 0,
    m := at1 ss_mass i }

/-- `const double k = 0.01720209895;` (Gaussian constant). -/
def k : ℚ := 0.01720209895

/-- The statements of `main`, lines 66-90, in program order; the `for` loop
over `i = 0, 1, 2` contributes one `particles_add` per iteration. -/
def main_body : List Stmt :=
  [ Stmt.set_dt 10,
    Stmt.set_integrator Integrator.WHFAST,
    Stmt.set_G (k * k),
    Stmt.rebound_configure_box 100 1 1 1 ]
  ++ (List.range 3).map (fun i => Stmt.particles_add (loop_particle i))
  ++ [ Stmt.tools_move_to_center_of_momentum,
       Stmt.tools_megno_init 1e-16,
       Stmt.set_heartbeat Callback.heartbeat,
       Stmt.rebound_integrate tmax ]

/-! ## The library, modelled from the specification -/

/-- Modelled from the spec: `rebound_init` is declared in rebound.h and absent
from the example.  A fresh simulation has global time 0, an empty particle
buffer, no variational particles, an empty accumulator and no callback; the
remaining fields (`dt`, `G`, `integrator`, box) are library defaults, carried
from `defaults`. -/
def rebound_init (defaults : Rebound) : Rebound :=
  { defaults with
    t := 0, particles := [], N_megno := 0, heartbeat := none,
    Y_integral := 0, time_sum := 0 }

/-- Modelled from the spec: `rebound_configure_box` is declared in rebound.h
and absent from the example; it records the box size and the number of root
boxes per axis (section 3, box configuration). -/
def rebound_configure_box (r : Rebound) (boxsize : ℚ) (nx ny nz : Nat) : Rebound :=
  { r with boxsize := boxsize, root_nx := nx, root_ny := ny, root_nz := nz }

/-- Modelled from the spec: `particles_add` (the spec's `addParticle`, 4.1) is
absent from the example.  It appends a real particle and fails with
`InvalidStateError` once the variational subsystem has been set up. -/
def particles_add (r : Rebound) (p : Particle) : Except Error Rebound :=
  if r.N_megno = 0 then
    .ok { r with particles := r.particles ++ [p] }
  else
    .error .InvalidStateError

/-- Sum of `f` over a particle list. -/
def psum (f : Particle → ℚ) (ps : List Particle) : ℚ :=
  ps.foldl (fun acc p => acc + f p) 0

/-- Translate the position of `p` by `-(dx, dy, dz)` and its velocity by
`-(dvx, dvy, dvz)`. -/
def shift (dx dy dz dvx dvy dvz : ℚ) (p : Particle) : Particle :=
  { p with x := p.x - dx, y := p.y - dy, z := p.z - dz,
           vx := p.vx - dvx, vy := p.vy - dvy, vz := p.vz - dvz }

/-- Modelled from the spec: `tools_move_to_center_of_momentum` is declared in
tools.h and absent from the example; the spec treats it as part of the
caller-supplied initial conditions.  It is the common translation its name
states: the mass-weighted mean position and velocity are subtracted from every
particle. -/
def tools_move_to_center_of_momentum (r : Rebound) : Rebound :=
  let mtot := psum (fun p => p.m) r.particles
  let cx := psum (fun p => p.x * p.m) r.particles / mtot
  let cy := psum (fun p => p.y * p.m) r.particles / mtot
  let cz := psum (fun p => p.z * p.m) r.particles / mtot
  let cvx := psum (fun p => p.vx * p.m) r.particles / mtot
  let cvy := psum (fun p => p.vy * p.m) r.particles / mtot
  let cvz := psum (fun p => p.vz * p.m) r.particles / mtot
  { r with particles := r.particles.map (shift cx cy cz cvx cvy cvz) }

/-- The variational particle seeded for real particle `i`: the unit deviation
`seed i` scaled by `epsilon`, with zero acceleration. -/
def shadow (seed : Nat → Particle) (epsilon : ℚ) (i : Nat) : Particle :=
  { x := epsilon * (seed i).x, y := epsilon * (seed i).y, z := epsilon * (seed i).z,
    vx := epsilon * (seed i).vx, vy := epsilon * (seed i).vy, vz := epsilon * (seed i).vz,
    ax := 0, ay := 0, az := 0,
    m := (seed i).m }

/-- Modelled from the spec: `tools_megno_init` (the spec's `initVariational`,
4.4) is absent from the example.  It appends one variational particle per
existing real particle, in the same order, and fails with `InvalidStateError`
when called a second time or before any real particle exists. -/
def tools_megno_init (lib : Library) (r : Rebound) (epsilon : ℚ) : Except Error Rebound :=
  if r.N_megno = 0 then
    if r.particles.length = 0 then
      .error .InvalidStateError
    else
      .ok { r with
        particles :=
          r.particles ++ (List.range r.particles.length).map (shadow lib.megno_seed epsilon),
        N_megno := r.particles.length }
  else
    .error .InvalidStateError

/-- Number of real particles (the spec's `particleCount`). -/
def N_real (r : Rebound) : Nat := r.particles.length - r.N_megno

/-- Index `j` of the buffer holds a real particle. -/
def is_real (r : Rebound) (j : Nat) : Bool := decide (j < N_real r)

/-- Index `j` of the buffer holds a variational particle. -/
def is_variational (r : Rebound) (j : Nat) : Bool :=
  decide (N_real r ≤ j) && decide (j < r.particles.length)

/-- Index of the shadow that tracks real particle `i` (section 3: indices
`[N, 2N)` are the shadows, ordered as the real particles). -/
def shadow_index (r : Rebound) (i : Nat) : Nat := N_real r + i

/-- Modelled from the spec: eager validation of the configuration (section 7)
is absent from the example.  A zero or negative mass among the real particles,
a time step that is not forward, or a non-positive gravitational constant is
rejected with `ConfigurationError`. -/
def validate_configuration (r : Rebound) : Except Error Unit :=
  if (r.particles.take (N_real r)).all (fun p => decide (0 < p.m))
      && decide (0 < r.dt) && decide (0 < r.G) then
    .ok ()
  else
    .error .ConfigurationError

/-- Two particles have the same position. -/
def coincident (p q : Particle) : Bool :=
  decide (p.x = q.x) && decide (p.y = q.y) && decide (p.z = q.z)

/-- Some two particles at different indices of the list coincide. -/
def has_coincident : List Particle → Bool
  | [] => false
  | p :: ps => ps.any (coincident p) || has_coincident ps

/-- Modelled from the spec: the Force Evaluator (4.2) is absent from the
example.  This is its geometry guard on the real particles: coincident
positions fail with `SingularGeometryError`. -/
def force_geometry_check (r : Rebound) : Except Error Unit :=
  if has_coincident (r.particles.take (N_real r)) then
    .error .SingularGeometryError
  else
    .ok ()

/-- Modelled from the spec: `tools_megno` (the spec's `currentValue`, 4.5) is
absent from the example.  A pure read: `(2/t) * Y_integral` when `t > 0`,
else 0. -/
def tools_megno (r : Rebound) : ℚ :=
  if 0 < r.t then (2 / r.t) * r.Y_integral else 0

/-- Modelled from the spec: `output_timing` is declared in output.h and absent
from the example; timing and progress reporting is pure output (section 1,
non-goals).  The line it prints is recorded as the pair (time, target). -/
def output_timing (r : Rebound) (target : ℚ) (w : World) : World :=
  { w with timing := w.timing ++ [(r.t, target)] }

/-! ## heartbeat -/

/-- The callback `heartbeat` (lines 93-104).  The C function returns `void`;
the embedding returns the simulation state it was handed together with the
outside world after its two outputs. -/
def heartbeat (lib : Library) (r : Rebound) (w : World) : Rebound × World :=
  let w1 := if lib.output_check r (1000 * r.dt) then output_timing r tmax w else w
  let w2 :=
    if lib.output_check r 362 then
      { w1 with Y_txt := w1.Y_txt ++ [(r.t, tools_megno r)] }
    else w1
  (r, w2)

/-- Call the function stored in `r->heartbeat`, if any.  The third component
is the number of calls made: 1 when the callback ran, 0 when none is stored. -/
def call_heartbeat (lib : Library) (r : Rebound) (w : World) : Rebound × World × Nat :=
  match r.heartbeat with
  | some Callback.heartbeat => ((heartbeat lib r w).1, (heartbeat lib r w).2, 1)
  | none => (r, w, 0)

/-! ## The main loop -/

/-- The simulation together with the outside world and two counters: the
integrator steps completed and the calls of the heartbeat callback that
`call_heartbeat` reported. -/
structure Machine where
  r : Rebound
  w : World
  steps : Nat
  heartbeats : Nat

/-- Result of running statements: finished, failed with an error of the
taxonomy, or stopped because the loop bound was reached. -/
inductive Outcome
  | done (m : Machine)
  | failed (e : Error)
  | out_of_fuel

/-- Modelled from the spec: the integrator step (section 2, 4.2, 4.3) is absent
from the example.  The step first has the Force Evaluator look at the
particles, which is fatal on coincident positions; the symplectic variant then
advances the particles, adds the step to the chaos accumulator (4.5) and
advances global time by the configured `dt`; the adaptive variant is left to
the library and fails with `StepSizeCollapseError` when its step size
collapses. -/
def integrator_step (lib : Library) (r : Rebound) : Except Error Rebound :=
  match force_geometry_check r with
  | .error e => .error e
  | .ok _ =>
    match r.integrator with
    | .WHFAST =>
      .ok { r with
        particles := lib.whfast_particles r,
        Y_integral := r.Y_integral + lib.megno_increment r,
        time_sum := r.time_sum + r.dt,
        t := r.t + r.dt }
    | .IAS15 =>
      match lib.ias15_step r with
      | some r1 => .ok r1
      | none => .error .StepSizeCollapseError

/-- One pass of the main loop: an integrator step, then the heartbeat on the
stepped state.  A fatal error of the step ends the pass before the heartbeat. -/
def loop_pass (lib : Library) (s : Machine) : Except Error Machine :=
  match integrator_step lib s.r with
  | .error e => .error e
  | .ok r1 =>
    .ok { r := (call_heartbeat lib r1 s.w).1,
          w := (call_heartbeat lib r1 s.w).2.1,
          steps := s.steps + 1,
          heartbeats := s.heartbeats + (call_heartbeat lib r1 s.w).2.2 }

/-- Modelled from the spec: `rebound_integrate` (the spec's `integrate`, 4.6)
is absent from the example.  It steps until global time reaches or exceeds
the target, calling the heartbeat after every step; a fatal error of a step
ends the run (section 7).  `fuel` bounds the number of loop tests. -/
def rebound_integrate (lib : Library) : Nat → ℚ → Machine → Outcome
  | 0, _, _ => .out_of_fuel
  | fuel + 1, target, s =>
    if target ≤ s.r.t then .done s
    else
      match loop_pass lib s with
      | .ok s1 => rebound_integrate lib fuel target s1
      | .error e => .failed e

/-- Lift a library call on the simulation state to the machine. -/
def lift (m : Machine) : Except Error Rebound → Outcome
  | .ok r => .done { m with r := r }
  | .error e => .failed e

/-- Execute one statement of `main`. -/
def exec (lib : Library) (fuel : Nat) : Stmt → Machine → Outcome
  | .set_dt v, m => .done { m with r := { m.r with dt := v } }
  | .set_integrator i, m => .done { m with r := { m.r with integrator := i } }
  | .set_G v, m => .done { m with r := { m.r with G := v } }
  | .rebound_configure_box b nx ny nz, m =>
    .done { m with r := rebound_configure_box m.r b nx ny nz }
  | .particles_add p, m => lift m (particles_add m.r p)
  | .tools_move_to_center_of_momentum, m =>
    .done { m with r := tools_move_to_center_of_momentum m.r }
  | .tools_megno_init e, m => lift m (tools_megno_init lib m.r e)
  | .set_heartbeat cb, m => .done { m with r := { m.r with heartbeat := some cb } }
  | .rebound_integrate target, m =>
    match validate_configuration m.r with
    | .error e => .failed e
    | .ok _ => rebound_integrate lib fuel target m

/-- Execute a sequence of statements, stopping at the first failure. -/
def run (lib : Library) (fuel : Nat) : List Stmt → Machine → Outcome
  | [], m => .done m
  | s :: rest, m =>
    match exec lib fuel s m with
    | .done m1 => run lib fuel rest m1
    | .failed e => .failed e
    | .out_of_fuel => .out_of_fuel

/-- The machine at the start of `main`: `r = rebound_init()`, nothing written
yet, no step taken. -/
def start (defaults : Rebound) : Machine :=
  { r := rebound_init defaults, w := { timing := [], Y_txt := [] },
    steps := 0, heartbeats := 0 }

/-- The statements of `main` up to and including `tools_megno_init` (line 84). -/
def main_through_megno_init : List Stmt := main_body.take 9

/-- The statements of `main` before `rebound_integrate` (lines 66-88). -/
def main_setup : List Stmt := main_body.take 10

/-- The particles passed to `particles_add`, in call order. -/
def added_particles : List Stmt → List Particle
  | [] => []
  | .particles_add p :: rest => p :: added_particles rest
  | _ :: rest => added_particles rest

/-- The machine when `main` reaches the call to `rebound_integrate`. -/
def after_setup (lib : Library) (d : Rebound) : Machine :=
  match run lib 0 main_setup (start d) with
  | .done m => m
  | _ => start d

/-- The calls of `main`, by kind, in program order. -/
theorem main_body_kinds :
    main_body.map Stmt.kind =
      [.set_dt, .set_integrator, .set_G, .rebound_configure_box, .particles_add,
       .particles_add, .particles_add, .tools_move_to_center_of_momentum,
       .tools_megno_init, .set_heartbeat, .rebound_integrate] := rfl

/-- Running a concatenation runs the first part, then the second. -/
theorem run_append (lib : Library) (fuel : Nat) (a b : List Stmt) (m : Machine) :
    run lib fuel (a ++ b) m =
      (match run lib fuel a m with
       | .done m1 => run lib fuel b m1
       | .failed e => .failed e
       | .out_of_fuel => .out_of_fuel) := by
  induction a generalizing m with
  | nil => rfl
  | cons s rest ih =>
    simp only [List.cons_append, run]
    cases exec lib fuel s m with
    | done m1 => exact ih m1
    | failed e => rfl
    | out_of_fuel => rfl

/-- The statements of `main` before `rebound_integrate`, loop unrolled. -/
theorem main_setup_eq :
    main_setup =
      [ Stmt.set_dt 10, Stmt.set_integrator Integrator.WHFAST, Stmt.set_G (k * k),
        Stmt.rebound_configure_box 100 1 1 1,
        Stmt.particles_add (loop_particle 0), Stmt.particles_add (loop_particle 1),
        Stmt.particles_add (loop_particle 2),
        Stmt.tools_move_to_center_of_momentum, Stmt.tools_megno_init 1e-16,
        Stmt.set_heartbeat Callback.heartbeat ] := rfl

/-- The last statement of `main` is the call to `rebound_integrate`. -/
theorem main_body_split : main_body = main_setup ++ [Stmt.rebound_integrate tmax] := rfl

/-- The whole of `main` is its setup followed by the call to `rebound_integrate`. -/
theorem run_main_body (lib : Library) (fuel : Nat) (d : Rebound) (m : Machine)
    (h : run lib fuel main_setup (start d) = .done m) :
    run lib fuel main_body (start d) = exec lib fuel (.rebound_integrate tmax) m := by
  rw [main_body_split, run_append, h]
  simp only [run]
  cases exec lib fuel (.rebound_integrate tmax) m <;> rfl

/-- A step fails only with one of the two fatal errors of the integrators. -/
theorem integrator_step_failure (lib : Library) (r : Rebound) (e : Error)
    (h : integrator_step lib r = .error e) :
    e = .SingularGeometryError ∨ e = .StepSizeCollapseError := by
  unfold integrator_step force_geometry_check at h
  split at h
  · rename_i e1 heq
    split at heq
    · cases heq
      cases h
      exact Or.inl rfl
    · cases heq
  · split at h
    · cases h
    · split at h
      · cases h
      · cases h
        exact Or.inr rfl

/-- A pass of the loop fails only with one of the two fatal errors. -/
theorem loop_pass_failure (lib : Library) (s : Machine) (e : Error)
    (h : loop_pass lib s = .error e) :
    e = .SingularGeometryError ∨ e = .StepSizeCollapseError := by
  unfold loop_pass at h
  split at h
  · rename_i e1 heq
    cases h
    exact integrator_step_failure lib s.r e heq
  · cases h

/-- The loop fails only with one of the two fatal errors. -/
theorem rebound_integrate_failure (lib : Library) (fuel : Nat) (target : ℚ) (s : Machine)
    (e : Error) (h : rebound_integrate lib fuel target s = .failed e) :
    e = .SingularGeometryError ∨ e = .StepSizeCollapseError := by
  induction fuel generalizing s with
  | zero => cases h
  | succ fuel ih =>
    unfold rebound_integrate at h
    split at h
    · cases h
    · split at h
      · exact ih _ h
      · rename_i e1 heq
        cases h
        exact loop_pass_failure lib s e heq

/-- The call to `rebound_integrate` never fails with `InvalidStateError`. -/
theorem exec_integrate_not_invalid (lib : Library) (fuel : Nat) (target : ℚ) (m : Machine) :
    exec lib fuel (.rebound_integrate target) m ≠ .failed .InvalidStateError := by
  simp only [exec, validate_configuration]
  split_ifs
  · intro h
    rcases rebound_integrate_failure lib fuel target m _ h with h1 | h1 <;> cases h1
  · simp

/-! ## C1: lifecycle order of the calls in main -/

/-- C1: in the calls of `main`, `tools_megno_init` occurs exactly once (at
position 8), every `particles_add` lies before it and at least one does,
`rebound_integrate` occurs only after it; and under the lifecycle rules of the
specification the setup of `main` runs to completion, and the whole of `main`
never fails with `InvalidStateError`. -/
theorem main_lifecycle_order (lib : Library) (fuel : Nat) (d : Rebound) :
    (main_body.map Stmt.kind).count .tools_megno_init = 1
    ∧ (main_body.map Stmt.kind).indexOf .tools_megno_init = 8
    ∧ CallKind.particles_add ∉ (main_body.map Stmt.kind).drop 8
    ∧ CallKind.particles_add ∈ (main_body.map Stmt.kind).take 8
    ∧ CallKind.rebound_integrate ∉ (main_body.map Stmt.kind).take 9
    ∧ CallKind.rebound_integrate ∈ (main_body.map Stmt.kind).drop 9
    ∧ (∃ m, run lib fuel main_setup (start d) = .done m)
    ∧ run lib fuel main_body (start d) ≠ .failed .InvalidStateError := by
  rw [main_body_kinds]
  refine ⟨by decide, by decide, by decide, by decide, by decide, by decide, ⟨_, rfl⟩, ?_⟩
  rw [run_main_body lib fuel d _ rfl]
  exact exec_integrate_not_invalid lib fuel tmax _

/-! ## C2: layout of the particle buffer after tools_megno_init -/

/-- C2: after the call to `tools_megno_init` in `main` the buffer holds exactly
6 particles, 3 real and 3 variational; indices 0..2 are the three particles
`main` added (Sun, Jupiter, Saturn, in that order, translated by
`tools_move_to_center_of_momentum`), indices 3..5 are variational, and the
shadow of real particle `i` sits at index `3 + i` and is the particle seeded
for `i`. -/
theorem buffer_after_megno_init (lib : Library) (fuel : Nat) (d : Rebound) :
    ∃ m, run lib fuel main_through_megno_init (start d) = .done m
      ∧ m.r.particles.length = 6
      ∧ N_real m.r = 3
      ∧ m.r.N_megno = 3
      ∧ (∀ j, is_real m.r j = true ↔ j < 3)
      ∧ (∀ j, is_variational m.r j = true ↔ 3 ≤ j ∧ j < 6)
      ∧ (∃ cx cy cz cvx cvy cvz, m.r.particles.take 3 =
          [loop_particle 0, loop_particle 1, loop_particle 2].map
            (shift cx cy cz cvx cvy cvz))
      ∧ (m.r.particles.take 3).map (fun p => p.m) = ss_mass
      ∧ (∀ i, i < 3 → shadow_index m.r i = 3 + i
          ∧ m.r.particles[shadow_index m.r i]? = some (shadow lib.megno_seed 1e-16 i)) := by
  refine ⟨_, rfl, rfl, rfl, rfl, ?_, ?_, ⟨_, _, _, _, _, _, rfl⟩, rfl, ?_⟩
  · intro j
    simp [is_real]
    exact Iff.rfl
  · intro j
    simp [is_variational]
    exact Iff.rfl
  · intro i hi
    interval_cases i <;> exact ⟨rfl, rfl⟩

/-! ## C3: heartbeat leaves the simulation state alone -/

/-- The records `heartbeat` leaves in Y.txt. -/
theorem heartbeat_Y_txt (lib : Library) (r : Rebound) (w : World) :
    (heartbeat lib r w).2.Y_txt =
      (if lib.output_check r 362 then w.Y_txt ++ [(r.t, tools_megno r)] else w.Y_txt) := by
  unfold heartbeat output_timing
  cases lib.output_check r (1000 * r.dt) <;> cases lib.output_check r 362 <;> rfl

/-- The timing lines `heartbeat` leaves. -/
theorem heartbeat_timing (lib : Library) (r : Rebound) (w : World) :
    (heartbeat lib r w).2.timing =
      (if lib.output_check r (1000 * r.dt) then w.timing ++ [(r.t, tmax)] else w.timing) := by
  unfold heartbeat output_timing
  cases lib.output_check r (1000 * r.dt) <;> cases lib.output_check r 362 <;> rfl

/-- C3: for every simulation state and outside world, `heartbeat` hands back
the simulation state unchanged, whichever of its two `output_check` branches
are taken; its only effects are the timing line (first branch) and the record
`(t, MEGNO)` appended to Y.txt (second branch); the loop, which calls it
through `r->heartbeat`, continues with the state it passed in. -/
theorem heartbeat_frame (lib : Library) (r : Rebound) (w : World) :
    (heartbeat lib r w).1 = r
    ∧ (heartbeat lib r w).2.timing =
        (if lib.output_check r (1000 * r.dt) then w.timing ++ [(r.t, tmax)] else w.timing)
    ∧ (heartbeat lib r w).2.Y_txt =
        (if lib.output_check r 362 then w.Y_txt ++ [(r.t, tools_megno r)] else w.Y_txt)
    ∧ (call_heartbeat lib r w).1 = r := by
  refine ⟨rfl, heartbeat_timing lib r w, heartbeat_Y_txt lib r w, ?_⟩
  unfold call_heartbeat
  split <;> rfl

/-! ## C4: the configuration handed to the core -/

/-- The machine `after_setup` is the result of running the setup of `main`. -/
theorem run_main_setup (lib : Library) (fuel : Nat) (d : Rebound) :
    run lib fuel main_setup (start d) = .done (after_setup lib d) := rfl

/-- C4: when `main` reaches `rebound_integrate` the integrator is WHFAST (the
fixed-step symplectic variant, not IAS15), `dt = 10`, `G = k * k` with
`k = 0.01720209895`, the callback is `heartbeat`, and the one call to
`tools_megno_init` was made with epsilon `1e-16`. -/
theorem main_configuration (lib : Library) (d : Rebound) :
    (after_setup lib d).r.integrator = Integrator.WHFAST
    ∧ (after_setup lib d).r.integrator ≠ Integrator.IAS15
    ∧ (after_setup lib d).r.dt = 10
    ∧ (after_setup lib d).r.G = k * k
    ∧ k = 0.01720209895
    ∧ (after_setup lib d).r.G = 0.0002959122082855911025
    ∧ (after_setup lib d).r.heartbeat = some Callback.heartbeat
    ∧ Stmt.tools_megno_init 1e-16 ∈ main_setup
    ∧ (∀ e, Stmt.tools_megno_init e ∈ main_body → e = 1e-16) := by
  refine ⟨rfl, ?_, rfl, rfl, rfl, ?_, rfl, ?_, ?_⟩
  · show Integrator.WHFAST ≠ Integrator.IAS15
    decide
  · show k * k = _
    norm_num [k]
  · simp [main_setup_eq]
  · intro e he
    simpa [main_body_split, main_setup_eq] using he

/-! ## C5: the masses given to particles_add -/

/-- The masses `main` passes to `particles_add`, in call order, as literals. -/
theorem added_masses :
    (added_particles main_body).map (fun p => p.m) =
      [1.00000597682, 1 / 1047000.355, 1 / 3501000.6] := rfl

/-- C5, as stated, fails: the masses given to `particles_add` are not
`1.0, 1/1047, 1/3501`; already the mass of particle 0 is not `1.0`. -/
theorem masses_differ_from_spec :
    (added_particles main_body).map (fun p => p.m) ≠ [1, 1 / 1047, 1 / 3501]
    ∧ ((added_particles main_body).map (fun p => p.m))[0]? ≠ some 1 := by
  rw [added_masses]
  constructor
  · norm_num
  · simp only [List.getElem?_cons_zero, ne_eq, Option.some.injEq]
    norm_num

/-- C5, amended: the masses given to `particles_add` for particles 0, 1, 2 are
the entries `ss_mass[0]`, `ss_mass[1]`, `ss_mass[2]`, in table order, and the
mass of particle 0 is exactly `1.00000597682` (Sun plus inner planets), not
`1.0`.  The values of the two planet entries are left open. -/
theorem masses_from_table :
    (added_particles main_body).map (fun p => p.m) =
      [at1 ss_mass 0, at1 ss_mass 1, at1 ss_mass 2]
    ∧ (added_particles main_body).map (fun p => p.m) = ss_mass
    ∧ at1 ss_mass 0 = 1.00000597682
    ∧ at1 ss_mass 0 ≠ 1 := by
  refine ⟨rfl, rfl, rfl, ?_⟩
  show (1.00000597682 : ℚ) ≠ 1
  norm_num

/-! ## C8: the configuration passes validation -/

/-- The configuration check at the end of the setup of `main`, on literals. -/
theorem validate_after_setup (lib : Library) (d : Rebound) :
    validate_configuration (after_setup lib d).r =
      (if ([1.00000597682, 1 / 1047000.355, 1 / 3501000.6] : List ℚ).all
            (fun x => decide (0 < x))
          && decide ((0 : ℚ) < 10) && decide (0 < k * k) then
        .ok ()
      else
        .error .ConfigurationError) := rfl

/-- The eager validation accepts the configuration of `main`. -/
theorem validate_ok (lib : Library) (d : Rebound) :
    validate_configuration (after_setup lib d).r = .ok () := by
  rw [validate_after_setup]
  norm_num [k]

/-- C8: every mass `main` passes to `particles_add` is strictly positive,
`G = k * k` and `dt` are strictly positive, the eager validation of the
specification accepts the configuration, and `main` never fails with
`ConfigurationError`. -/
theorem configuration_well_formed (lib : Library) (d : Rebound) :
    (∀ p ∈ added_particles main_body, 0 < p.m)
    ∧ 0 < (after_setup lib d).r.G
    ∧ 0 < (after_setup lib d).r.dt
    ∧ validate_configuration (after_setup lib d).r = .ok ()
    ∧ (∀ fuel, run lib fuel main_body (start d) ≠ .failed .ConfigurationError) := by
  have hv := validate_ok lib d
  refine ⟨?_, ?_, ?_, hv, ?_⟩
  · intro p hp
    have hm : p.m ∈ (added_particles main_body).map (fun p => p.m) :=
      List.mem_map_of_mem _ hp
    rw [added_masses] at hm
    simp only [List.mem_cons, List.mem_singleton, List.not_mem_nil, or_false] at hm
    rcases hm with h | h | h <;> rw [h] <;> norm_num
  · show (0 : ℚ) < k * k
    norm_num [k]
  · show (0 : ℚ) < 10
    norm_num
  · intro fuel
    rw [run_main_body lib fuel d _ (run_main_setup lib fuel d)]
    simp only [exec, hv]
    intro h
    rcases rebound_integrate_failure lib fuel tmax (after_setup lib d) _ h with h1 | h1 <;>
      cases h1

/-! ## C9: the initial positions are pairwise distinct -/

/-- A common translation does not change whether two particles coincide. -/
theorem coincident_shift (cx cy cz cvx cvy cvz : ℚ) (p q : Particle) :
    coincident (shift cx cy cz cvx cvy cvz p) (shift cx cy cz cvx cvy cvz q) =
      coincident p q := by
  simp [coincident, shift]

/-- A common translation does not change whether a list has a coincident pair. -/
theorem has_coincident_map_shift (cx cy cz cvx cvy cvz : ℚ) (ps : List Particle) :
    has_coincident (ps.map (shift cx cy cz cvx cvy cvz)) = has_coincident ps := by
  induction ps with
  | nil => rfl
  | cons p rest ih =>
    have hf : (coincident (shift cx cy cz cvx cvy cvz p) ∘ shift cx cy cz cvx cvy cvz) =
        coincident p := by
      funext q
      exact coincident_shift cx cy cz cvx cvy cvz p q
    simp only [List.map_cons, has_coincident, ih, List.any_map, hf]

/-- The particles `main` adds, loop unrolled. -/
theorem added_particles_eq :
    added_particles main_body = [loop_particle 0, loop_particle 1, loop_particle 2] := rfl

/-- The x coordinates of the three initial positions, as literals. -/
theorem loop_particle_x :
    (loop_particle 0).x = -4.06428567034226e-3
    ∧ (loop_particle 1).x = 3.40546614227466e+0
    ∧ (loop_particle 2).x = 6.60801554403466e+0 := ⟨rfl, rfl, rfl⟩

/-- No two of the three particles `main` adds coincide. -/
theorem added_particles_distinct : has_coincident (added_particles main_body) = false := by
  obtain ⟨h0, h1, h2⟩ := loop_particle_x
  rw [added_particles_eq]
  simp only [has_coincident, coincident, List.any_cons, List.any_nil, h0, h1, h2]
  norm_num

/-- The real particles at the end of the setup are the added ones, translated. -/
theorem real_particles_after_setup (lib : Library) (d : Rebound) :
    ∃ cx cy cz cvx cvy cvz,
      (after_setup lib d).r.particles.take (N_real (after_setup lib d).r) =
        (added_particles main_body).map (shift cx cy cz cvx cvy cvz) :=
  ⟨_, _, _, _, _, _, rfl⟩

/-- C9: the three rows of `ss_pos` are pairwise different (already in their
first entry), so no two of the
particles `main` adds coincide; they stay pairwise distinct under every common
translation, in particular under `tools_move_to_center_of_momentum`, and the
geometry guard of the Force Evaluator accepts the real particles `main` hands
to `rebound_integrate`. -/
theorem initial_positions_distinct (lib : Library) (d : Rebound) :
    (∀ i j : Fin 3, i ≠ j → at2 ss_pos i 0 ≠ at2 ss_pos j 0)
    ∧ has_coincident (added_particles main_body) = false
    ∧ (∀ cx cy cz cvx cvy cvz : ℚ,
        has_coincident ((added_particles main_body).map (shift cx cy cz cvx cvy cvz)) = false)
    ∧ has_coincident
        ((after_setup lib d).r.particles.take (N_real (after_setup lib d).r)) = false
    ∧ force_geometry_check (after_setup lib d).r = .ok () := by
  have hshift : ∀ cx cy cz cvx cvy cvz : ℚ,
      has_coincident ((added_particles main_body).map (shift cx cy cz cvx cvy cvz)) = false := by
    intro cx cy cz cvx cvy cvz
    rw [has_coincident_map_shift]
    exact added_particles_distinct
  have hreal : has_coincident
      ((after_setup lib d).r.particles.take (N_real (after_setup lib d).r)) = false := by
    obtain ⟨cx, cy, cz, cvx, cvy, cvz, h⟩ := real_particles_after_setup lib d
    rw [h]
    exact hshift cx cy cz cvx cvy cvz
  refine ⟨?_, added_particles_distinct, hshift, hreal, ?_⟩
  · obtain ⟨h0, h1, h2⟩ := loop_particle_x
    have e0 : at2 ss_pos 0 0 = -4.06428567034226e-3 := rfl
    have e1 : at2 ss_pos 1 0 = 3.40546614227466e+0 := rfl
    have e2 : at2 ss_pos 2 0 = 6.60801554403466e+0 := rfl
    intro i j hij
    fin_cases i <;> fin_cases j <;> first
      | exact absurd rfl hij
      | (simp only [Fin.zero_eta, Fin.mk_one, Fin.reduceFinMk, Fin.val_zero, Fin.val_one,
          Fin.val_two, Fin.isValue, e0, e1, e2]; norm_num)
  · unfold force_geometry_check
    rw [hreal]
    rfl

/-! ## C10: every field of the added particles comes from its table row -/

/-- C10: for `i = 0, 1, 2` the `i`-th particle passed to `particles_add` has
position `ss_pos[i][0..2]`, velocity `ss_vel[i][0..2]`, mass `ss_mass[i]` and
zero acceleration; the particles are added in table order, and written out
with the literals of the tables they are as below. -/
theorem added_particles_from_tables :
    (added_particles main_body).length = 3
    ∧ (∀ i : Fin 3, (added_particles main_body)[i.val]? = some
        { x := at2 ss_pos i 0, y := at2 ss_pos i 1, z := at2 ss_pos i 2,
          vx := at2 ss_vel i 0, vy := at2 ss_vel i 1, vz := at2 ss_vel i 2,
          ax := 0, ay := 0, az := 0,
          m := at1 ss_mass i })
    ∧ added_particles main_body =
        [ { x := -4.06428567034226e-3, y := -6.08813756435987e-3, z := -1.66162304225834e-6,
            vx := 6.69048890636161e-6, vy := -6.33922479583593e-6, vz := -3.13202145590767e-9,
            ax := 0, ay := 0, az := 0, m := 1.00000597682 },
          { x := 3.40546614227466e+0, y := 3.62978190075864e+0, z := 3.42386261766577e-2,
            vx := -5.59797969310664e-3, vy := 5.51815399480116e-3, vz := -2.66711392865591e-6,
            ax := 0, ay := 0, az := 0, m := 1 / 1047000.355 },
          { x := 6.60801554403466e+0, y := 6.38084674585064e+0, z := -1.36145963724542e-1,
            vx := -4.17354020307064e-3, vy := 3.99723751748116e-3, vz := 1.67206320571441e-5,
            ax := 0, ay := 0, az := 0, m := 1 / 3501000.6 } ] := by
  refine ⟨rfl, ?_, rfl⟩
  intro i
  fin_cases i <;> rfl

/-! ## C6: the main loop terminates after 10^8 steps -/

/-- A registered `heartbeat` is called once, on the state handed over. -/
theorem call_heartbeat_registered (lib : Library) (r : Rebound) (w : World)
    (hcb : r.heartbeat = some .heartbeat) :
    call_heartbeat lib r w = (r, (heartbeat lib r w).2, 1) := by
  unfold call_heartbeat
  rw [hcb]
  rfl

/-- A successful WHFAST step: the geometry guard passed, time advanced by
`dt`, the configuration stayed. -/
theorem integrator_step_whfast (lib : Library) (r r1 : Rebound)
    (hI : r.integrator = .WHFAST) (h : integrator_step lib r = .ok r1) :
    force_geometry_check r = .ok ()
    ∧ r1.t = r.t + r.dt
    ∧ r1.dt = r.dt
    ∧ r1.integrator = .WHFAST
    ∧ r1.heartbeat = r.heartbeat := by
  unfold integrator_step at h
  split at h
  · cases h
  · rename_i u hgeo
    rw [hI] at h
    simp only [Except.ok.injEq] at h
    subst h
    exact ⟨hgeo, rfl, rfl, rfl, rfl⟩

/-- One successful pass of the loop with the symplectic integrator and
`heartbeat` registered: the step ran on the old state, `heartbeat` was called
once on the stepped state and left the outside world it returns, time advanced
by `dt`, and both counters went up by one. -/
theorem loop_pass_whfast (lib : Library) (s b : Machine)
    (hI : s.r.integrator = .WHFAST) (hcb : s.r.heartbeat = some .heartbeat)
    (h : loop_pass lib s = .ok b) :
    integrator_step lib s.r = .ok b.r
    ∧ call_heartbeat lib b.r s.w = (b.r, (heartbeat lib b.r s.w).2, 1)
    ∧ b.w = (heartbeat lib b.r s.w).2
    ∧ b.steps = s.steps + 1
    ∧ b.heartbeats = s.heartbeats + 1
    ∧ b.r.t = s.r.t + s.r.dt
    ∧ b.r.dt = s.r.dt
    ∧ b.r.integrator = .WHFAST
    ∧ b.r.heartbeat = some .heartbeat := by
  unfold loop_pass at h
  split at h
  · cases h
  · rename_i r1 hstep
    obtain ⟨-, g1, g2, g3, g4⟩ := integrator_step_whfast lib s.r r1 hI hstep
    have hcb1 : r1.heartbeat = some .heartbeat := by rw [g4, hcb]
    have hcall := call_heartbeat_registered lib r1 s.w hcb1
    rw [hcall] at h
    simp only [Except.ok.injEq] at h
    subst h
    exact ⟨hstep, hcall, rfl, rfl, rfl, g1, g2, g3, hcb1⟩

/-- Whatever the steps do, the loop has stopped (finished or failed) once the
fuel exceeds the number of steps after which `t + n * dt` reaches the target. -/
theorem rebound_integrate_halts (lib : Library) (target : ℚ) (n extra : Nat) (s : Machine)
    (hI : s.r.integrator = .WHFAST) (hcb : s.r.heartbeat = some .heartbeat)
    (hreach : target ≤ s.r.t + n * s.r.dt) :
    rebound_integrate lib (n + 1 + extra) target s ≠ .out_of_fuel := by
  induction n generalizing s with
  | zero =>
    have hfuel : 0 + 1 + extra = extra + 1 := by omega
    have ht : target ≤ s.r.t := by simpa using hreach
    rw [hfuel]
    simp [rebound_integrate, ht]
  | succ n ih =>
    have hfuel : n + 1 + 1 + extra = (n + 1 + extra) + 1 := by omega
    rw [hfuel]
    unfold rebound_integrate
    split_ifs with ht
    · simp
    · cases h1 : loop_pass lib s with
      | error e => simp
      | ok s1 =>
        obtain ⟨-, -, -, -, -, g1, g2, g3, g4⟩ := loop_pass_whfast lib s s1 hI hcb h1
        apply ih s1 g3 g4
        rw [g1, g2]
        push_cast at hreach
        linarith

/-- When `main` reaches `rebound_integrate`: time 0, step 10, WHFAST, callback
`heartbeat`, nothing counted or written yet. -/
theorem after_setup_state (lib : Library) (d : Rebound) :
    (after_setup lib d).r.t = 0
    ∧ (after_setup lib d).r.dt = 10
    ∧ (after_setup lib d).r.integrator = .WHFAST
    ∧ (after_setup lib d).r.heartbeat = some .heartbeat
    ∧ (after_setup lib d).steps = 0
    ∧ (after_setup lib d).heartbeats = 0 :=
  ⟨rfl, rfl, rfl, rfl, rfl, rfl⟩

/-- The target is reached after `10^8` steps of 10. -/
theorem reach_tmax (lib : Library) (d : Rebound) :
    tmax ≤ (after_setup lib d).r.t + (100000000 : ℕ) * (after_setup lib d).r.dt := by
  obtain ⟨h0, h1, -⟩ := after_setup_state lib d
  have ht : tmax = 1000000000 := by norm_num [tmax]
  rw [h0, h1, ht]
  norm_num

/-- The whole of `main` is the loop started from the state after the setup. -/
theorem run_main_is_loop (lib : Library) (fuel : Nat) (d : Rebound) :
    run lib fuel main_body (start d) =
      rebound_integrate lib fuel tmax (after_setup lib d) := by
  rw [run_main_body lib fuel d _ (run_main_setup lib fuel d)]
  simp only [exec, validate_ok lib d]

/-- Whatever the library does in a step, `main` has stopped, finished or failed
with a fatal error, once the loop bound exceeds `10^8` tests. -/
theorem main_loop_halts (lib : Library) (d : Rebound) (extra : Nat) :
    run lib (100000000 + 1 + extra) main_body (start d) ≠ .out_of_fuel := by
  obtain ⟨-, -, hI, hcb, -⟩ := after_setup_state lib d
  rw [run_main_is_loop]
  exact rebound_integrate_halts lib tmax 100000000 extra (after_setup lib d) hI hcb
    (reach_tmax lib d)

end Megno
